import Mathlib

/-!
Verification development for the admin-backend session/credential subsystem
(lijianqiao/backend).  The definitions below are shallow embeddings of the
Python sources under `src/app`:

* `app/core/token_store.py`   — `MemoryRefreshTokenStore`, `RedisRefreshTokenStore`,
  `get_refresh_token_store` and the module-level helpers;
* `app/core/session_store.py` — `MemorySessionStore.list_online` and friends;
* `app/services/auth_service.py` — `AuthService.authenticate`,
  `AuthService.login_access_token`, `AuthService.refresh_token`;
* `app/services/session_service.py` — `SessionService.kick_user`;
* `app/api/deps.py` — `get_current_user`.

Timestamps (Python `time.time()` floats) are modelled as `Nat` seconds; Python
dicts are modelled as association lists with first-match lookup and in-place
update; exceptions are modelled with `Except` carrying the `CustomException`
code and message from `app/core/exceptions.py`.

A few pieces of the repository are referenced by the sources above but are not
present under `src/` (`app/core/security.py`, `AuthService.logout`, the
`revoke_user_access_now` family in `app/core/token_store.py`, and the
permission resolver behind `deps.require_permissions` /
`menu_service.get_my_menus_tree`).  Those are modelled from the spec; each such
definition carries a doc comment starting with `Modelled from the spec:`.
-/

/-! ## Association-list helpers (Python `dict` semantics) -/

/-- Lookup in an association list: first binding wins (Python dict keys are
unique, so this is `d.get(k)`). -/
def alistGet {α : Type} (l : List (String × α)) (k : String) : Option α :=
  (l.find? (fun p => p.1 == k)).map (·.2)

/-- `d[k] = v`: replace the binding in place if the key is present, otherwise
append it. -/
def alistSet {α : Type} (l : List (String × α)) (k : String) (v : α) :
    List (String × α) :=
  match l with
  | [] => [(k, v)]
  | (k', v') :: t => if k' == k then (k, v) :: t else (k', v') :: alistSet t k v

/-- `d.pop(k, None)`: drop every binding for `k` (there is at most one). -/
def alistRemove {α : Type} (l : List (String × α)) (k : String) :
    List (String × α) :=
  l.filter (fun p => ¬ p.1 == k)

/-! ## Configuration constants (`app/core/config.py`) -/

/-- `settings.ACCESS_TOKEN_EXPIRE_MINUTES = 30`, converted to seconds as
`timedelta(minutes=30)` is in `login_access_token` / `refresh_token`. -/
def accessTokenExpireSeconds : Nat := 30 * 60

/-- `_default_ttl_seconds()` in `app/core/token_store.py`:
`settings.REFRESH_TOKEN_EXPIRE_DAYS * 24 * 3600` with
`REFRESH_TOKEN_EXPIRE_DAYS = 7`. -/
def defaultTtlSeconds : Nat := 7 * 24 * 3600

/-- `_REVOKED_JTI` sentinel from `app/core/token_store.py`. -/
def revokedJti : String := "__revoked__"

/-! ## MemoryRefreshTokenStore (`app/core/token_store.py`, lines 81–109) -/

/-- In-process refresh-token store: `user_id -> (jti, expire_at)`. -/
structure MemoryRefreshTokenStore where
  data : List (String × (String × Nat))
deriving Repr, DecidableEq

/-- `MemoryRefreshTokenStore.set_current_jti`: stores
`(jti, time.time() + max(1, int(ttl_seconds)))`. -/
def setCurrentJti (s : MemoryRefreshTokenStore) (userId jti : String)
    (ttlSeconds now : Nat) : MemoryRefreshTokenStore :=
  ⟨alistSet s.data userId (jti, now + max 1 ttlSeconds)⟩

/-- `MemoryRefreshTokenStore.get_current_jti`: missing entry yields `None`;
an entry with `expire_at <= now` is popped and yields `None`; otherwise the
stored jti is returned.  The pair carries the (possibly pruned) store. -/
def getCurrentJti (s : MemoryRefreshTokenStore) (userId : String) (now : Nat) :
    Option String × MemoryRefreshTokenStore :=
  match alistGet s.data userId with
  | none => (none, s)
  | some (jti, expireAt) =>
    if expireAt ≤ now then (none, ⟨alistRemove s.data userId⟩)
    else (some jti, s)

/-- `MemoryRefreshTokenStore.revoke_user`: stores the `__revoked__` sentinel
with `expire_at = time.time() + max(1, _default_ttl_seconds())`. -/
def revokeUser (s : MemoryRefreshTokenStore) (userId : String) (now : Nat) :
    MemoryRefreshTokenStore :=
  ⟨alistSet s.data userId (revokedJti, now + max 1 defaultTtlSeconds)⟩

/-! ## Lemmas about the association list and the store -/

theorem alistGet_alistSet_self {α : Type} (l : List (String × α)) (k : String)
    (v : α) : alistGet (alistSet l k v) k = some v := by
  induction l with
  | nil => simp [alistGet, alistSet, List.find?]
  | cons hd tl ih =>
    by_cases h : hd.1 == k
    · simp only [alistSet, alistGet, h]
      simp [List.find?]
    · simp only [alistSet, alistGet] at *
      simp only [h]
      simpa [List.find?, h] using ih

theorem alistSet_alistSet_self {α : Type} (l : List (String × α)) (k : String)
    (v w : α) : alistSet (alistSet l k v) k w = alistSet l k w := by
  induction l with
  | nil => simp [alistSet]
  | cons hd tl ih =>
    by_cases h : hd.1 == k
    · simp [alistSet, h]
    · simp [alistSet, h, ih]

theorem getCurrentJti_revokeUser (s : MemoryRefreshTokenStore)
    (userId : String) (now t : Nat) :
    (getCurrentJti (revokeUser s userId now) userId t).1 =
      if now + max 1 defaultTtlSeconds ≤ t then none else some revokedJti := by
  unfold getCurrentJti revokeUser
  rw [alistGet_alistSet_self]
  by_cases h : now + max 1 defaultTtlSeconds ≤ t <;> simp [h]

/-! ## Tokens and principals -/

/-- A user row as read by the auth flows (`app/models/user.py` plus the flags
consulted in `auth_service.py` / `deps.py`). -/
structure Principal where
  id : String
  username : String
  password : String
  isActive : Bool
  isDeleted : Bool
  isSuperuser : Bool
deriving Repr, DecidableEq

/-- The claim set of a JWT as consulted by the sources: `sub`, `type`,
`iat`, `exp`, `jti`. -/
structure JwtPayload where
  sub : Option String
  typ : Option String
  iat : Nat
  exp : Nat
  jti : Option String
deriving Repr, DecidableEq

/-- A presented token string, abstracted to its decoded payload together with
whether its signature verifies under the server's `SECRET_KEY`.
`jwt.decode(token, SECRET_KEY, algorithms=["HS256"])` succeeds exactly when the
signature verifies and the embedded `exp` has not passed; otherwise it raises
`InvalidTokenError`. -/
structure PresentedToken where
  payload : JwtPayload
  sigValid : Bool
deriving Repr, DecidableEq

/-- `app/core/exceptions.py`: a `CustomException` carries an HTTP-style code
and a message.  `UnauthorizedException` is code 401, `ForbiddenException` 403,
`NotFoundException` 404. -/
structure CustomErr where
  code : Nat
  message : String
deriving Repr, DecidableEq

/-- The `Token` response schema: `access_token`, `refresh_token`,
`token_type`.  Token strings are abstracted to their claim content. -/
structure TokenOut where
  accessToken : JwtPayload
  refreshToken : PresentedToken
  tokenType : String
deriving Repr, DecidableEq

/-- Modelled from the spec: `security.create_access_token`
(`app/core/security.py` is not under `src/`).  Per spec §4.1 `issue_access`
embeds subject, issued-at, expiry (`ttl` seconds from issuance, here
`ACCESS_TOKEN_EXPIRE_MINUTES`) and kind `access`. -/
def createAccessToken (subject : String) (now : Nat) : JwtPayload :=
  { sub := some subject, typ := some "access", iat := now,
    exp := now + accessTokenExpireSeconds, jti := none }

/-- Modelled from the spec: `security.create_refresh_token`
(`app/core/security.py` is not under `src/`).  Per spec §4.1 `issue_refresh`
embeds subject, issued-at, expiry (`REFRESH_TOKEN_EXPIRE_DAYS`) and kind
`refresh` with a freshly generated jti; the fresh jti is passed in as a
parameter here. -/
def createRefreshToken (subject freshJti : String) (now : Nat) : PresentedToken :=
  { payload := { sub := some subject, typ := some "refresh", iat := now,
                 exp := now + defaultTtlSeconds, jti := some freshJti },
    sigValid := true }

/-! ## AuthService (`app/services/auth_service.py`) -/

/-- `AuthService.authenticate` (lines 37–52): look the user up by username and
then by phone (the phone lookup is folded into the repository function here);
return `None` when the user is missing, inactive, deleted, or the password
hash does not verify. -/
def authenticate (byUsername byPhone : String → Option Principal)
    (verify : String → String → Bool) (username password : String) :
    Option Principal :=
  let user := match byUsername username with
    | some u => some u
    | none => byPhone username
  match user with
  | none => none
  | some u =>
    if ¬ u.isActive ∨ u.isDeleted then none
    else if ¬ verify password u.password then none
    else some u

/-- A login-log entry as queued via `background_tasks.add_task` in
`login_access_token`. -/
structure LoginLogEntry where
  userId : Option String
  username : String
  status : Bool
  msg : String
deriving Repr, DecidableEq

/-- `AuthService.login_access_token` (lines 54–84): on authentication failure
it queues a failure log for the submitted username and raises
`CustomException(code=400, message="用户名或密码错误")`; on success it issues an
access token and a refresh token and queues a success log.  The fresh refresh
jti is passed in (`uuid4` in the codec). -/
def loginAccessToken (byUsername byPhone : String → Option Principal)
    (verify : String → String → Bool) (username password freshJti : String)
    (now : Nat) : Except CustomErr TokenOut × List LoginLogEntry :=
  match authenticate byUsername byPhone verify username password with
  | none =>
    (.error ⟨400, "用户名或密码错误"⟩,
     [⟨none, username, false, "用户名或密码错误"⟩])
  | some u =>
    (.ok ⟨createAccessToken u.id now, createRefreshToken u.id freshJti now,
          "bearer"⟩,
     [⟨some u.id, u.username, true, "登录成功"⟩])

/-- `AuthService.refresh_token` (lines 86–123): decode the presented token
(`jwt.decode` checks signature and expiry); the in-`try` checks of the `type`
claim and the presence of `sub` raise `UnauthorizedException`s that are caught
by the `except (InvalidTokenError, Exception)` clause and re-raised as the
generic 401 `"无效的刷新令牌"`; then parse the subject as a UUID (validity of the
parse is abstracted into the `isUuid` predicate), load the user and require it
to exist and be active; finally issue a new access token and return it
together with THE PRESENTED refresh token unchanged (the source explicitly
keeps the refresh token as-is and never consults the token store). -/
def refreshTokenSrc (repo : String → Option Principal)
    (isUuid : String → Bool) (t : PresentedToken) (now : Nat) :
    Except CustomErr TokenOut :=
  if ¬ (t.sigValid = true ∧ now < t.payload.exp) then
    .error ⟨401, "无效的刷新令牌"⟩
  else if t.payload.typ ≠ some "refresh" then
    .error ⟨401, "无效的刷新令牌"⟩
  else
    match t.payload.sub with
    | none => .error ⟨401, "无效的刷新令牌"⟩
    | some userId =>
      if ¬ isUuid userId then .error ⟨401, "无效的刷新令牌 (用户ID格式错误)"⟩
      else
        match repo userId with
        | none => .error ⟨401, "用户不存在或已禁用"⟩
        | some u =>
          if ¬ u.isActive then .error ⟨401, "用户不存在或已禁用"⟩
          else .ok ⟨createAccessToken u.id now, t, "bearer"⟩

/-! ## get_current_user (`app/api/deps.py`, lines 64–93) -/

/-- `get_current_user`: `jwt.decode` failure (bad signature, malformed, or
expired) and `TokenPayload` validation failure yield the 401
`"无法验证凭据 (Token 无效)"`; a missing `sub` yields 401; a subject with no
matching user row yields `NotFoundException` (404 `"用户不存在"`); an inactive
user yields `ForbiddenException` (403 `"用户已被禁用"`); otherwise the user is
returned.  No token-store or cutoff state is consulted anywhere in this
function. -/
def getCurrentUser (repo : String → Option Principal) (t : PresentedToken)
    (now : Nat) : Except CustomErr Principal :=
  if ¬ (t.sigValid = true ∧ now < t.payload.exp) then
    .error ⟨401, "无法验证凭据 (Token 无效)"⟩
  else
    match t.payload.sub with
    | none => .error ⟨401, "无法验证凭据 (Token 缺失 sub)"⟩
    | some s =>
      match repo s with
      | none => .error ⟨404, "用户不存在"⟩
      | some u =>
        if ¬ u.isActive then .error ⟨403, "用户已被禁用"⟩
        else .ok u

/-! ## MemorySessionStore (`app/core/session_store.py`, lines 153–201) -/

/-- An online-session record (`OnlineSession` dataclass). -/
structure OnlineSession where
  userId : String
  username : String
  ip : Option String
  userAgent : Option String
  loginAt : Nat
  lastSeenAt : Nat
deriving Repr, DecidableEq

/-- In-process session registry: `user_id -> (session, expire_at)`. -/
structure MemorySessionStore where
  data : List (String × (OnlineSession × Nat))
deriving Repr, DecidableEq

/-- `MemorySessionStore.upsert_session`. -/
def upsertSession (s : MemorySessionStore) (sess : OnlineSession)
    (ttlSeconds now : Nat) : MemorySessionStore :=
  ⟨alistSet s.data sess.userId (sess, now + max 1 ttlSeconds)⟩

/-- `MemorySessionStore.remove_session`: `dict.pop(user_id, None)`,
idempotent on missing keys. -/
def removeSession (s : MemorySessionStore) (userId : String) :
    MemorySessionStore :=
  ⟨alistRemove s.data userId⟩

/-- Stable insertion into a list sorted by `last_seen_at` descending: the new
element goes after every element with a key ≥ its own, which is what Python's
stable `list.sort(key=..., reverse=True)` produces when folded left-to-right. -/
def insertByLastSeenDesc (x : OnlineSession) :
    List OnlineSession → List OnlineSession
  | [] => [x]
  | y :: ys =>
    if y.lastSeenAt < x.lastSeenAt then x :: y :: ys
    else y :: insertByLastSeenDesc x ys

/-- `items.sort(key=lambda x: x.last_seen_at, reverse=True)` (stable). -/
def sortByLastSeenDesc (l : List OnlineSession) : List OnlineSession :=
  l.foldl (fun acc x => insertByLastSeenDesc x acc) []

/-- `page` clamping in `MemorySessionStore.list_online`:
`if page < 1: page = 1`. -/
def clampPage (page : Int) : Int :=
  if page < 1 then 1 else page

/-- `page_size` handling in `MemorySessionStore.list_online` (identical in
`RedisSessionStore.list_online`): `if page_size < 1: page_size = 20` and
`if page_size > 100: page_size = 100`. -/
def clampPageSize (pageSize : Int) : Int :=
  if pageSize < 1 then 20
  else if pageSize > 100 then 100
  else pageSize

/-- `MemorySessionStore.list_online` (lines 180–201): clamp the arguments,
prune entries whose `expire_at <= now`, sort the surviving sessions by
`last_seen_at` descending, and return the slice
`items[(page-1)*page_size : (page-1)*page_size + page_size]` together with the
full count; the pruned store is returned as well. -/
def listOnlineM (s : MemorySessionStore) (page pageSize : Int) (now : Nat) :
    (List OnlineSession × Nat) × MemorySessionStore :=
  let page := clampPage page
  let pageSize := clampPageSize pageSize
  let live := s.data.filter (fun p => decide (now < p.2.2))
  let items := sortByLastSeenDesc (live.map (fun p => p.2.1))
  let total := items.length
  let start := ((page - 1) * pageSize).toNat
  (((items.drop start).take pageSize.toNat, total), ⟨live⟩)

/-! ## System-level state and the orchestration flows -/

/-- The per-process mutable state the auth flows can reach: the refresh-token
store, the online-session registry, and the per-user access-token cutoff map.
The cutoff map is Modelled from the spec: the `revoke_user_access_now` family
imported by `app/services/session_service.py` from `app/core/token_store.py`
is absent from `src/`; per spec §4.2 `revoke_access_from_now(user_id)` records
a cutoff timestamp for the user. -/
structure SystemState where
  refreshStore : MemoryRefreshTokenStore
  sessionStore : MemorySessionStore
  cutoffs : List (String × Nat)
deriving Repr, DecidableEq

/-- Modelled from the spec: `revoke_access_from_now(user_id)` (the
`revoke_user_access_now` helper of `app/core/token_store.py`, absent from
`src/`): records the current instant as the user's access-token cutoff. -/
def revokeAccessFromNow (cutoffs : List (String × Nat)) (userId : String)
    (now : Nat) : List (String × Nat) :=
  alistSet cutoffs userId now

/-- Modelled from the spec: `AuthService.logout(user_id)` (called at
`app/api/v1/endpoints/auth.py:109` but absent from
`src/app/services/auth_service.py`): per spec §4.4 **Logout** calls
`revoke_refresh`, `revoke_access_from_now` and removes the session record.
The two store mutations are the `src/` memory-store operations. -/
def logoutModelled (st : SystemState) (userId : String) (now : Nat) :
    SystemState :=
  { refreshStore := revokeUser st.refreshStore userId now,
    sessionStore := removeSession st.sessionStore userId,
    cutoffs := revokeAccessFromNow st.cutoffs userId now }

/-- `SessionService.kick_user` (`app/services/session_service.py`,
lines 94–105): look the target user up; whether or not a user row exists, call
`revoke_user_refresh`, `revoke_user_access_now` and `remove_online_session`
(both branches of the source perform the same three calls). -/
def kickUser (repo : String → Option Principal) (st : SystemState)
    (userId : String) (now : Nat) : SystemState :=
  match repo userId with
  | none =>
    { refreshStore := revokeUser st.refreshStore userId now,
      sessionStore := removeSession st.sessionStore userId,
      cutoffs := revokeAccessFromNow st.cutoffs userId now }
  | some _ =>
    { refreshStore := revokeUser st.refreshStore userId now,
      sessionStore := removeSession st.sessionStore userId,
      cutoffs := revokeAccessFromNow st.cutoffs userId now }

/-- The `/auth/refresh` endpoint over the full system state
(`app/api/v1/endpoints/auth.py:54-74` delegating to
`AuthService.refresh_token`): the handler reads and writes none of the stores,
so the state is returned unchanged alongside the service result. -/
def refreshEndpoint (st : SystemState) (repo : String → Option Principal)
    (isUuid : String → Bool) (t : PresentedToken) (now : Nat) :
    Except CustomErr TokenOut × SystemState :=
  (refreshTokenSrc repo isUuid t now, st)

/-- The `/auth/login` endpoint over the full system state
(`app/api/v1/endpoints/auth.py:23-51` delegating to
`AuthService.login_access_token`): the handler reads and writes none of the
stores, so the state is returned unchanged alongside the service result. -/
def loginEndpoint (st : SystemState) (byUsername byPhone : String → Option Principal)
    (verify : String → String → Bool) (username password freshJti : String)
    (now : Nat) :
    (Except CustomErr TokenOut × List LoginLogEntry) × SystemState :=
  (loginAccessToken byUsername byPhone verify username password freshJti now, st)

/-- Access-token verification on a protected route, over the full system
state: `deps.get_current_user` is the only verification step and it consults
no store, so only the repository, the token and the clock matter. -/
def verifyAccess (st : SystemState) (repo : String → Option Principal)
    (t : PresentedToken) (now : Nat) : Except CustomErr Principal :=
  getCurrentUser repo t now

/-! ## RedisRefreshTokenStore and backend selection
(`app/core/token_store.py`, lines 47–78 and 112–134) -/

/-- The backing shared cache as seen by `token_store.py`: `connected` models
`redis_client is not None`; `failing` models operations raising; `data` maps
keys to `(value, expire_at)` pairs (`setex` semantics). -/
structure RedisBackend where
  connected : Bool
  failing : Bool
  data : List (String × (String × Nat))
deriving Repr, DecidableEq

/-- `redis_client.setex(key, ttl, value)`: raises when the backend is
failing, otherwise stores the value with `expire_at = now + ttl`. -/
def redisSetex (b : RedisBackend) (key : String) (ttl : Nat) (value : String)
    (now : Nat) : Except String RedisBackend :=
  if b.failing then .error "connection error"
  else .ok { b with data := alistSet b.data key (value, now + ttl) }

/-- `redis_client.get(key)`: raises when the backend is failing, otherwise
returns the stored value if its ttl has not elapsed. -/
def redisGet (b : RedisBackend) (key : String) (now : Nat) :
    Except String (Option String) :=
  if b.failing then .error "connection error"
  else
    .ok (match alistGet b.data key with
      | some (v, expireAt) => if now < expireAt then some v else none
      | none => none)

/-- `_refresh_key(user_id)`. -/
def refreshKey (userId : String) : String := "v1:auth:refresh:" ++ userId

/-- `RedisRefreshTokenStore.set_current_jti`: no-op when `redis_client is
None`; otherwise `setex` with the exception caught and turned into the
warning log `"refresh token 存储失败(REDIS)"` — it is never re-raised, and on
failure the backend (and hence the stored data) is unchanged. -/
def redisStoreSetCurrentJti (b : RedisBackend) (userId jti : String)
    (ttlSeconds now : Nat) : RedisBackend × List String :=
  if ¬ b.connected then (b, [])
  else
    match redisSetex b (refreshKey userId) ttlSeconds jti now with
    | .ok b' => (b', [])
    | .error e => (b, ["refresh token 存储失败(REDIS): " ++ e])

/-- `RedisRefreshTokenStore.get_current_jti`: no-op returning `None` when the
client is absent; a raised exception is caught, logged and turned into
`None`; a falsy (empty) stored value also yields `None`. -/
def redisStoreGetCurrentJti (b : RedisBackend) (userId : String) (now : Nat) :
    Option String × List String :=
  if ¬ b.connected then (none, [])
  else
    match redisGet b (refreshKey userId) now with
    | .ok v =>
      (match v with
       | some s => if s.isEmpty then none else some s
       | none => none, [])
    | .error e => (none, ["refresh token 读取失败(REDIS): " ++ e])

/-- `RedisRefreshTokenStore.revoke_user`: `setex` of the sentinel for the
default ttl, with the exception caught and logged. -/
def redisStoreRevokeUser (b : RedisBackend) (userId : String) (now : Nat) :
    RedisBackend × List String :=
  if ¬ b.connected then (b, [])
  else
    match redisSetex b (refreshKey userId) defaultTtlSeconds revokedJti now with
    | .ok b' => (b', [])
    | .error e => (b, ["refresh token 撤销失败(REDIS): " ++ e])

/-- The module-level store pair of `token_store.py`: `_redis_store` works on
the shared cache, `_memory_store` is the in-process fallback. -/
structure TokenStoreSys where
  redis : RedisBackend
  memory : MemoryRefreshTokenStore
deriving Repr, DecidableEq

/-- `set_user_refresh_jti` via `get_refresh_token_store()`: the Redis store is
selected exactly when `redis_client is not None`, otherwise the memory store. -/
def setUserRefreshJti (sys : TokenStoreSys) (userId jti : String)
    (ttlSeconds now : Nat) : TokenStoreSys × List String :=
  if sys.redis.connected then
    let r := redisStoreSetCurrentJti sys.redis userId jti ttlSeconds now
    ({ sys with redis := r.1 }, r.2)
  else
    ({ sys with memory := setCurrentJti sys.memory userId jti ttlSeconds now }, [])

/-- `get_user_refresh_jti` via `get_refresh_token_store()`. -/
def getUserRefreshJti (sys : TokenStoreSys) (userId : String) (now : Nat) :
    Option String × TokenStoreSys × List String :=
  if sys.redis.connected then
    let r := redisStoreGetCurrentJti sys.redis userId now
    (r.1, sys, r.2)
  else
    let r := getCurrentJti sys.memory userId now
    (r.1, { sys with memory := r.2 }, [])

/-- `revoke_user_refresh` via `get_refresh_token_store()`. -/
def revokeUserRefreshSys (sys : TokenStoreSys) (userId : String) (now : Nat) :
    TokenStoreSys × List String :=
  if sys.redis.connected then
    let r := redisStoreRevokeUser sys.redis userId now
    ({ sys with redis := r.1 }, r.2)
  else
    ({ sys with memory := revokeUser sys.memory userId now }, [])

/-! ## Permission resolver (spec §4.5) -/

/-- A menu row as the resolver sees it: an optional permission code plus the
deleted/active flags (`app/models/rbac.py` is not under `src/`). -/
structure MenuRec where
  id : Nat
  permission : Option String
  isDeleted : Bool
  isActive : Bool
deriving Repr, DecidableEq

/-- A role row: deleted/active flags and the menus assigned to it. -/
structure RoleRec where
  id : Nat
  isDeleted : Bool
  isActive : Bool
  menuIds : List Nat
deriving Repr, DecidableEq

/-- The RBAC tables the resolver walks. -/
structure Rbac where
  menus : List MenuRec
  roles : List RoleRec
deriving Repr, DecidableEq

/-- A principal as the resolver sees it: the superuser flag and the assigned
role ids. -/
structure RPrincipal where
  isSuperuser : Bool
  roleIds : List Nat
deriving Repr, DecidableEq

/-- Every permission code in the system: the codes attached to any menu. -/
def allPermissions (sys : Rbac) : List String :=
  sys.menus.filterMap (·.permission)

/-- Modelled from the spec: the permission resolver
(`deps.require_permissions` / the permission traversal behind
`menu_service.get_my_menus_tree`, neither present under `src/`).  Per spec
§4.5 `resolve(principal)` returns the universal permission set for superusers
without traversal; for non-superusers it returns the union over the
principal's roles of the permission codes attached to menus assigned to those
roles, restricted to non-deleted, active menus and roles. -/
def resolvePermissions (sys : Rbac) (p : RPrincipal) : List String :=
  if p.isSuperuser then allPermissions sys
  else
    (sys.roles.filter
        (fun r => r.id ∈ p.roleIds ∧ r.isDeleted = false ∧ r.isActive = true)).flatMap
      (fun r =>
        (sys.menus.filter
            (fun m => m.id ∈ r.menuIds ∧ m.isDeleted = false ∧ m.isActive = true)).filterMap
          (·.permission))

/-! ## Supporting lemmas -/

theorem getCurrentJti_setCurrentJti (s : MemoryRefreshTokenStore)
    (userId jti : String) (ttl now t : Nat) :
    (getCurrentJti (setCurrentJti s userId jti ttl now) userId t).1 =
      if now + max 1 ttl ≤ t then none else some jti := by
  unfold getCurrentJti setCurrentJti
  rw [alistGet_alistSet_self]
  by_cases h : now + max 1 ttl ≤ t <;> simp [h]

theorem max_one_defaultTtl : max 1 defaultTtlSeconds = defaultTtlSeconds := by
  decide

theorem clampPage_of_lt {p : Int} (h : p < 1) : clampPage p = 1 := by
  simp [clampPage, h]

theorem clampPage_one : clampPage (1 : Int) = 1 := by decide

theorem clampPageSize_of_lt {p : Int} (h : p < 1) : clampPageSize p = 20 := by
  simp [clampPageSize, h]

theorem clampPageSize_of_gt {p : Int} (h : p > 100) : clampPageSize p = 100 := by
  have h1 : ¬ p < 1 := by omega
  simp [clampPageSize, h1, h]

theorem clampPageSize_twenty : clampPageSize (20 : Int) = 20 := by decide

theorem clampPageSize_hundred : clampPageSize (100 : Int) = 100 := by decide

/-! ## C8 -/

/-- C8: on the in-process refresh-token store, `revoke_user` is idempotent
(repeating it at the same instant leaves the very same state — and it never
throws: the operation is a total dictionary write, defined also when no entry
exists); after a revocation, `get_current_jti` never returns any jti that
could have been stored via `set_current_jti` (jtis are random UUIDs, so they
differ from the `__revoked__` sentinel — the hypothesis `j ≠ revokedJti`);
the revocation marker stays observable for the refresh token's maximum
lifetime (`defaultTtlSeconds`); and a subsequent login's `set_current_jti`
makes the fresh jti current again. -/
theorem C8_revoke_refresh_idempotent_sentinel :
    (∀ (s : MemoryRefreshTokenStore) (uid : String) (now : Nat),
       revokeUser (revokeUser s uid now) uid now = revokeUser s uid now) ∧
    (∀ (s : MemoryRefreshTokenStore) (uid : String) (now t : Nat) (j : String),
       j ≠ revokedJti →
       (getCurrentJti (revokeUser s uid now) uid t).1 ≠ some j) ∧
    (∀ (s : MemoryRefreshTokenStore) (uid : String) (now t : Nat),
       t < now + defaultTtlSeconds →
       (getCurrentJti (revokeUser s uid now) uid t).1 = some revokedJti) ∧
    (∀ (s : MemoryRefreshTokenStore) (uid j : String) (now ttl now2 t : Nat),
       t < now2 + max 1 ttl →
       (getCurrentJti (setCurrentJti (revokeUser s uid now) uid j ttl now2)
          uid t).1 = some j) := by
  refine ⟨?_, ?_, ?_, ?_⟩
  · intro s uid now
    unfold revokeUser
    simp [alistSet_alistSet_self]
  · intro s uid now t j hj
    rw [getCurrentJti_revokeUser]
    split
    · simp
    · simpa using fun h => hj h.symm
  · intro s uid now t ht
    rw [getCurrentJti_revokeUser, max_one_defaultTtl, if_neg (by omega)]
  · intro s uid j now ttl now2 t ht
    rw [getCurrentJti_setCurrentJti, if_neg (by omega)]

/-- C8 witness: concrete instances of every hypothesis-guarded part of the
theorem. -/
theorem C8_witness :
    ((getCurrentJti (revokeUser ⟨[]⟩ "u1" 0) "u1" 5).1 ≠ some "j1") ∧
    ((getCurrentJti (revokeUser ⟨[]⟩ "u1" 0) "u1" 5).1 = some revokedJti) ∧
    ((getCurrentJti (setCurrentJti (revokeUser ⟨[]⟩ "u1" 0) "u1" "j2" 604800 10)
        "u1" 20).1 = some "j2") :=
  ⟨C8_revoke_refresh_idempotent_sentinel.2.1 ⟨[]⟩ "u1" 0 5 "j1" (by decide),
   C8_revoke_refresh_idempotent_sentinel.2.2.1 ⟨[]⟩ "u1" 0 5 (by decide),
   C8_revoke_refresh_idempotent_sentinel.2.2.2 ⟨[]⟩ "u1" "j2" 0 604800 10 20
     (by decide)⟩

/-! ## C9 -/

/-- An online session used in the C9 counterexample. -/
def sessA : OnlineSession :=
  ⟨"u1", "alice", none, none, 0, 1⟩

/-- A second online session used in the C9 counterexample. -/
def sessB : OnlineSession :=
  ⟨"u2", "bob", none, none, 0, 2⟩

/-- A registry holding two unexpired sessions, for the C9 counterexample. -/
def storeAB : MemorySessionStore :=
  ⟨[("u1", (sessA, 100)), ("u2", (sessB, 100))]⟩

/-- C9 counterexample: the claim says `page_size` is clamped into `[1, 100]`,
so `page_size = 0` would have to behave like `page_size = 1`.  On a registry
with two live sessions the code returns 2 items for `page_size = 0` (it falls
back to the default 20) but 1 item for `page_size = 1`. -/
theorem C9_counterexample :
    listOnlineM storeAB 1 0 0 ≠ listOnlineM storeAB 1 1 0 ∧
    (listOnlineM storeAB 1 0 0).1.1.length = 2 ∧
    (listOnlineM storeAB 1 1 0).1.1.length = 1 := by
  decide

/-- C9 amended: `page < 1` behaves as `page = 1`; `page_size > 100` behaves
as `page_size = 100`; `page_size < 1` falls back to the default `20` (not to
`1`); consequently `list_online(page=0, page_size=500)` does behave
identically to `list_online(page=1, page_size=100)`; and on an empty registry
the result is `([], 0)` with the registry unchanged. -/
theorem C9_pagination_amended :
    (∀ (s : MemorySessionStore) (page ps : Int) (now : Nat), page < 1 →
       listOnlineM s page ps now = listOnlineM s 1 ps now) ∧
    (∀ (s : MemorySessionStore) (page ps : Int) (now : Nat), ps > 100 →
       listOnlineM s page ps now = listOnlineM s page 100 now) ∧
    (∀ (s : MemorySessionStore) (page ps : Int) (now : Nat), ps < 1 →
       listOnlineM s page ps now = listOnlineM s page 20 now) ∧
    (∀ (s : MemorySessionStore) (now : Nat),
       listOnlineM s 0 500 now = listOnlineM s 1 100 now) ∧
    (∀ (page ps : Int) (now : Nat),
       listOnlineM ⟨[]⟩ page ps now = (([], 0), ⟨[]⟩)) := by
  refine ⟨?_, ?_, ?_, ?_, ?_⟩
  · intro s page ps now h
    simp only [listOnlineM, clampPage_of_lt h, clampPage_one]
  · intro s page ps now h
    simp only [listOnlineM, clampPageSize_of_gt h, clampPageSize_hundred]
  · intro s page ps now h
    simp only [listOnlineM, clampPageSize_of_lt h, clampPageSize_twenty]
  · intro s now
    simp only [listOnlineM, clampPage_of_lt (by decide : (0:Int) < 1),
      clampPage_one, clampPageSize_of_gt (by decide : (500:Int) > 100),
      clampPageSize_hundred]
  · intro page ps now
    simp [listOnlineM, sortByLastSeenDesc]

/-- C9 witness: the hypothesis-guarded parts of the amended theorem applied at
concrete inputs. -/
theorem C9_pagination_amended_witness :
    listOnlineM storeAB (-3) 7 0 = listOnlineM storeAB 1 7 0 ∧
    listOnlineM storeAB 1 500 0 = listOnlineM storeAB 1 100 0 ∧
    listOnlineM storeAB 1 0 0 = listOnlineM storeAB 1 20 0 :=
  ⟨C9_pagination_amended.1 storeAB (-3) 7 0 (by decide),
   C9_pagination_amended.2.1 storeAB 1 500 0 (by decide),
   C9_pagination_amended.2.2.1 storeAB 1 0 0 (by decide)⟩

/-! ## Shared concrete fixtures for the auth-flow claims -/

instance {ε α : Type} [DecidableEq ε] [DecidableEq α] :
    DecidableEq (Except ε α) := fun x y =>
  match x, y with
  | .error a, .error b =>
    if h : a = b then .isTrue (by rw [h])
    else .isFalse (fun hc => h (Except.error.inj hc))
  | .ok a, .ok b =>
    if h : a = b then .isTrue (by rw [h])
    else .isFalse (fun hc => h (Except.ok.inj hc))
  | .error _, .ok _ => .isFalse (fun hc => Except.noConfusion hc)
  | .ok _, .error _ => .isFalse (fun hc => Except.noConfusion hc)

/-- An active, non-deleted user used in concrete scenarios. -/
def demoUser : Principal :=
  ⟨"u1", "alice", "H", true, false, false⟩

/-- A user repository holding exactly `demoUser` under id `"u1"`. -/
def demoRepo : String → Option Principal :=
  fun s => if s == "u1" then some demoUser else none

/-- A username repository holding `demoUser` under username `"alice"`. -/
def demoByUsername : String → Option Principal :=
  fun s => if s == "alice" then some demoUser else none

/-- An empty phone repository. -/
def demoByPhone : String → Option Principal := fun _ => none

/-- A password verifier accepting exactly `("secret", "H")`. -/
def demoVerify : String → String → Bool :=
  fun p h => p == "secret" && h == "H"

/-- A cryptographically valid, unexpired refresh token carrying jti `"j1"`
for subject `"u1"`. -/
def tokJ1 : PresentedToken :=
  ⟨⟨some "u1", some "refresh", 0, 604800, some "j1"⟩, true⟩

/-! ## C1 -/

/-- A system state in which the refresh store reports `"j2"` — not `tokJ1`'s
`"j1"` — as the user's current jti (as after a rotation or a second login). -/
def stRotated : SystemState :=
  ⟨setCurrentJti ⟨[]⟩ "u1" "j2" 604800 50, ⟨[]⟩, []⟩

/-- C1: the single-active-refresh-token invariant fails in the code.
`AuthService.refresh_token` (auth_service.py lines 86–123) never consults the
token store and never rotates: with the store reporting `"j2"` as current, a
presented token carrying the superseded jti `"j1"` still succeeds, and the
response's refresh token is the presented token itself.  The repository's own
test (`tests/test_api/test_auth_refresh.py::test_refresh_token_valid`)
requires the rotated-out token to fail with 401 and the response to carry a
fresh refresh token, so the claim states the intent and the code is the
slip. -/
theorem C1_refresh_ignores_store_no_rotation :
    (getCurrentJti stRotated.refreshStore "u1" 60).1 = some "j2" ∧
    tokJ1.payload.jti = some "j1" ∧
    (refreshEndpoint stRotated demoRepo (fun _ => true) tokJ1 60).1 =
      .ok ⟨createAccessToken "u1" 60, tokJ1, "bearer"⟩ ∧
    (refreshEndpoint stRotated demoRepo (fun _ => true) tokJ1 60).2 =
      stRotated := by
  decide

/-! ## C2 -/

/-- A system state right after a login of `"u1"` with refresh jti `"j1"` and
a live online-session record. -/
def stLoggedIn : SystemState :=
  ⟨setCurrentJti ⟨[]⟩ "u1" "j1" 604800 0,
   ⟨[("u1", (⟨"u1", "alice", some "127.0.0.1", none, 0, 0⟩, 604800))]⟩,
   []⟩

/-- The state after the (spec-modelled) logout of `"u1"` at time 10. -/
def stLoggedOut : SystemState := logoutModelled stLoggedIn "u1" 10

/-- C2: logout's three effects do occur in the modelled flow (the refresh jti
becomes the sentinel, the session record is gone, the access cutoff is
recorded) — and the modelled logout is a total function, so calling it twice
succeeds and (at the same instant) leaves the same state.  But the final part
of the claim fails in the code: `AuthService.refresh_token` never consults
the token store, so a refresh token issued before the logout is still
accepted afterwards, where the claim and the repository's own test
(`tests/test_api/test_auth_logout.py::test_logout_revokes_refresh_token`)
require 401.  (`AuthService.logout` itself is absent from
`src/app/services/auth_service.py` even though
`app/api/v1/endpoints/auth.py:109` calls it.) -/
theorem C2_logout_does_not_invalidate_refresh :
    (getCurrentJti stLoggedOut.refreshStore "u1" 20).1 = some revokedJti ∧
    alistGet stLoggedOut.sessionStore.data "u1" = none ∧
    alistGet stLoggedOut.cutoffs "u1" = some 10 ∧
    logoutModelled stLoggedOut "u1" 10 = stLoggedOut ∧
    (refreshEndpoint stLoggedOut demoRepo (fun _ => true) tokJ1 20).1 =
      .ok ⟨createAccessToken "u1" 20, tokJ1, "bearer"⟩ := by
  decide

/-! ## C4 -/

/-- C4 counterexample: a failed login raises `CustomException(code=400)`
(auth_service.py line 68), not the 401 `Unauthorized` the claim states. -/
theorem C4_counterexample :
    (loginAccessToken demoByUsername demoByPhone demoVerify "alice" "wrong"
        "jX" 0).1 = .error ⟨400, "用户名或密码错误"⟩ ∧
    (400 : Nat) ≠ 401 := by
  decide

/-- C4 amended: for every login attempt that fails authentication (bad
credentials, inactive or deleted principal), `login_access_token` fails with
`CustomException` code 400 and message `"用户名或密码错误"` (HTTP 400, not 401),
issues no tokens, makes no state changes, and still queues exactly one audit
log entry carrying the submitted username; an inactive or deleted principal
always fails authentication. -/
theorem C4_login_failure_amended
    (byU byP : String → Option Principal) (verify : String → String → Bool)
    (username password freshJti : String) (now : Nat) (st : SystemState)
    (h : authenticate byU byP verify username password = none) :
    loginAccessToken byU byP verify username password freshJti now =
      (.error ⟨400, "用户名或密码错误"⟩,
       [⟨none, username, false, "用户名或密码错误"⟩]) ∧
    (loginEndpoint st byU byP verify username password freshJti now).2 = st ∧
    (∀ (u : Principal) (byU2 : String → Option Principal),
       byU2 username = some u → (u.isActive = false ∨ u.isDeleted = true) →
       authenticate byU2 byP verify username password = none) := by
  refine ⟨?_, rfl, ?_⟩
  · simp [loginAccessToken, h]
  · intro u byU2 hu hflag
    unfold authenticate
    rw [hu]
    rcases hflag with hf | hf <;> simp [hf]

/-- A deactivated copy of the demo user, for the C4 witness. -/
def inactiveUser : Principal :=
  ⟨"u1", "alice", "H", false, false, false⟩

/-- A username repository holding only the deactivated user. -/
def inactiveByUsername : String → Option Principal :=
  fun s => if s == "alice" then some inactiveUser else none

/-- C4 witness: the amended theorem applied to a concrete wrong-password
login and to a correct-password login of a deactivated principal. -/
theorem C4_login_failure_amended_witness :
    loginAccessToken demoByUsername demoByPhone demoVerify "alice" "wrong"
        "jX" 0 =
      (.error ⟨400, "用户名或密码错误"⟩,
       [⟨none, "alice", false, "用户名或密码错误"⟩]) ∧
    authenticate inactiveByUsername demoByPhone demoVerify "alice" "secret" =
      none :=
  ⟨(C4_login_failure_amended demoByUsername demoByPhone demoVerify "alice"
      "wrong" "jX" 0 ⟨⟨[]⟩, ⟨[]⟩, []⟩ (by decide)).1,
   (C4_login_failure_amended inactiveByUsername demoByPhone demoVerify "alice"
      "secret" "jX" 0 ⟨⟨[]⟩, ⟨[]⟩, []⟩ (by decide)).2.2
     inactiveUser inactiveByUsername (by decide) (Or.inl rfl)⟩

/-! ## C6 -/

/-- C6: a refresh token whose embedded expiry has passed fails with the 401
`"无效的刷新令牌"` (the `jwt.decode` expiry failure), for every system state —
in particular when the store reports the token's jti as current — and the
state is returned untouched: `AuthService.refresh_token` performs no store
lookup at all, so the expiry check trivially precedes any.  (The result holds
even without assuming the signature is valid, which is stronger than the
claim needs.) -/
theorem C6_expiry_precedes_store (st : SystemState)
    (repo : String → Option Principal) (isUuid : String → Bool)
    (t : PresentedToken) (now : Nat) (hexp : t.payload.exp ≤ now) :
    (refreshEndpoint st repo isUuid t now).1 = .error ⟨401, "无效的刷新令牌"⟩ ∧
    (refreshEndpoint st repo isUuid t now).2 = st := by
  have hc : ¬ (t.sigValid = true ∧ now < t.payload.exp) := by
    rintro ⟨-, h2⟩
    omega
  constructor
  · show refreshTokenSrc repo isUuid t now = _
    unfold refreshTokenSrc
    rw [if_pos hc]
  · rfl

/-- A state whose refresh store reports jti `"j1"` as current for `"u1"`. -/
def stCurrentJ1 : SystemState :=
  ⟨setCurrentJti ⟨[]⟩ "u1" "j1" 604800 0, ⟨[]⟩, []⟩

/-- A cryptographically valid refresh token with jti `"j1"` already expired
at time 200. -/
def tokExpiredJ1 : PresentedToken :=
  ⟨⟨some "u1", some "refresh", 0, 100, some "j1"⟩, true⟩

/-- C6 witness: at time 200 the store still reports `"j1"` as current, yet
the expired token carrying `"j1"` is rejected with 401. -/
theorem C6_expiry_precedes_store_witness :
    (getCurrentJti stCurrentJ1.refreshStore "u1" 200).1 = some "j1" ∧
    (refreshEndpoint stCurrentJ1 demoRepo (fun _ => true) tokExpiredJ1
        200).1 = .error ⟨401, "无效的刷新令牌"⟩ :=
  ⟨by decide,
   (C6_expiry_precedes_store stCurrentJ1 demoRepo (fun _ => true)
      tokExpiredJ1 200 (by decide)).1⟩

/-! ## C10 -/

/-- C10: on a protected route, a cryptographically valid, unexpired access
token whose subject matches no user yields `NotFoundException` (404
`"用户不存在"`), and one whose user exists but is inactive yields
`ForbiddenException` (403 `"用户已被禁用"`); neither code is the 401 of
invalid-token handling. -/
theorem C10_missing_user_404_inactive_403
    (repo : String → Option Principal) (t : PresentedToken) (now : Nat)
    (s : String) (hsig : t.sigValid = true) (hexp : now < t.payload.exp)
    (hsub : t.payload.sub = some s) :
    (repo s = none → getCurrentUser repo t now = .error ⟨404, "用户不存在"⟩) ∧
    (∀ u : Principal, repo s = some u → u.isActive = false →
       getCurrentUser repo t now = .error ⟨403, "用户已被禁用"⟩) ∧
    (404 : Nat) ≠ 401 ∧ (403 : Nat) ≠ 401 := by
  refine ⟨?_, ?_, by decide, by decide⟩
  · intro hrepo
    simp [getCurrentUser, hsig, hexp, hsub, hrepo]
  · intro u hrepo hact
    simp [getCurrentUser, hsig, hexp, hsub, hrepo, hact]

/-- An empty user repository. -/
def emptyRepo : String → Option Principal := fun _ => none

/-- A repository holding only the deactivated user under id `"u1"`. -/
def inactiveRepo : String → Option Principal :=
  fun s => if s == "u1" then some inactiveUser else none

/-- A cryptographically valid access token for subject `"u1"`, unexpired at
time 10. -/
def tokAccU1 : PresentedToken :=
  ⟨⟨some "u1", some "access", 5, 1000, none⟩, true⟩

/-- C10 witness: the theorem applied to an absent user and to an inactive
user at concrete inputs. -/
theorem C10_missing_user_404_inactive_403_witness :
    getCurrentUser emptyRepo tokAccU1 10 = .error ⟨404, "用户不存在"⟩ ∧
    getCurrentUser inactiveRepo tokAccU1 10 = .error ⟨403, "用户已被禁用"⟩ :=
  ⟨(C10_missing_user_404_inactive_403 emptyRepo tokAccU1 10 "u1" rfl
      (by decide) rfl).1 rfl,
   (C10_missing_user_404_inactive_403 inactiveRepo tokAccU1 10 "u1" rfl
      (by decide) rfl).2.1 inactiveUser (by decide) rfl⟩

/-! ## C3 -/

/-- A system state holding a recorded access cutoff of 100 for `"u1"`. -/
def stWithCutoff : SystemState :=
  ⟨⟨[]⟩, ⟨[]⟩, [("u1", 100)]⟩

/-- An access token for `"u1"` issued at 50 — before the cutoff 100 — and
valid until 10000. -/
def tokPreCutoff : PresentedToken :=
  ⟨⟨some "u1", some "access", 50, 10000, none⟩, true⟩

/-- C3 counterexample: the recorded cutoff for `"u1"` is 100 and the token's
issued-at 50 predates it, yet verification on a protected route
(`deps.get_current_user`) accepts the token: no verification path consults
the cutoff. -/
theorem C3_counterexample :
    alistGet stWithCutoff.cutoffs "u1" = some 100 ∧
    tokPreCutoff.payload.iat = 50 ∧ (50 : Nat) < 100 ∧
    verifyAccess stWithCutoff demoRepo tokPreCutoff 200 = .ok demoUser := by
  decide

/-- C3 amended: `revoke_access_from_now` (modelled from the spec, as the
`revoke_user_access_now` helpers of `token_store.py` are absent from `src/`)
records the instant as the user's cutoff, and both Kick
(`SessionService.kick_user`) and the spec-modelled Logout invoke it; but
access-token verification on protected routes is entirely independent of the
system state, so a pre-cutoff access token is never rejected by it. -/
theorem C3_cutoff_recorded_but_not_checked :
    (∀ (repo : String → Option Principal) (st : SystemState) (uid : String)
       (now : Nat),
       alistGet (kickUser repo st uid now).cutoffs uid = some now) ∧
    (∀ (st : SystemState) (uid : String) (now : Nat),
       alistGet (logoutModelled st uid now).cutoffs uid = some now) ∧
    (∀ (st st2 : SystemState) (repo : String → Option Principal)
       (t : PresentedToken) (now : Nat),
       verifyAccess st repo t now = verifyAccess st2 repo t now) := by
  refine ⟨?_, ?_, ?_⟩
  · intro repo st uid now
    cases h : repo uid <;>
      simp [kickUser, h, revokeAccessFromNow, alistGet_alistSet_self]
  · intro st uid now
    simp [logoutModelled, revokeAccessFromNow, alistGet_alistSet_self]
  · intro st st2 repo t now
    rfl

/-! ## C5 -/

/-- A token-store system whose cache client exists but whose operations
fail, with an empty in-process fallback map. -/
def failingSys : TokenStoreSys :=
  ⟨⟨true, true, []⟩, ⟨[]⟩⟩

/-- C5 counterexample: with the shared cache present but failing,
`set_user_refresh_jti` catches and logs the failure — but it leaves every
store untouched (in particular the in-process map), so the subsequent read
finds nothing: the mutation is silently dropped rather than degraded to the
local map as the claim states. -/
theorem C5_counterexample :
    (setUserRefreshJti failingSys "u1" "j1" 100 0).2 =
      ["refresh token 存储失败(REDIS): connection error"] ∧
    (setUserRefreshJti failingSys "u1" "j1" 100 0).1 = failingSys ∧
    (getUserRefreshJti (setUserRefreshJti failingSys "u1" "j1" 100 0).1
       "u1" 0).1 ≠ some "j1" := by
  decide

/-- C5 amended: every cache-operation failure is caught, produces exactly one
warning log, and is never surfaced to the caller (the operations are total
and return with the state unchanged — the mutation is dropped, not replayed
on the local map); degradation to the in-process map happens only through
backend selection in `get_refresh_token_store()` when the cache client is
absent, and in that mode mutations do take effect locally. -/
theorem C5_degradation_amended :
    (∀ (sys : TokenStoreSys) (uid jti : String) (ttl now : Nat),
       sys.redis.connected = true → sys.redis.failing = true →
       (setUserRefreshJti sys uid jti ttl now).1 = sys ∧
       (setUserRefreshJti sys uid jti ttl now).2.length = 1) ∧
    (∀ (sys : TokenStoreSys) (uid : String) (now : Nat),
       sys.redis.connected = true → sys.redis.failing = true →
       (revokeUserRefreshSys sys uid now).1 = sys ∧
       (revokeUserRefreshSys sys uid now).2.length = 1) ∧
    (∀ (sys : TokenStoreSys) (uid : String) (now : Nat),
       sys.redis.connected = true → sys.redis.failing = true →
       (getUserRefreshJti sys uid now).1 = none ∧
       (getUserRefreshJti sys uid now).2.2.length = 1) ∧
    (∀ (sys : TokenStoreSys) (uid jti : String) (ttl now t : Nat),
       sys.redis.connected = false → t < now + max 1 ttl →
       (getUserRefreshJti (setUserRefreshJti sys uid jti ttl now).1
          uid t).1 = some jti) := by
  refine ⟨?_, ?_, ?_, ?_⟩
  · intro sys uid jti ttl now hconn hfail
    simp [setUserRefreshJti, redisStoreSetCurrentJti, redisSetex, hconn, hfail]
  · intro sys uid now hconn hfail
    simp [revokeUserRefreshSys, redisStoreRevokeUser, redisSetex, hconn, hfail]
  · intro sys uid now hconn hfail
    simp [getUserRefreshJti, redisStoreGetCurrentJti, redisGet, hconn, hfail]
  · intro sys uid jti ttl now t hconn ht
    simp only [setUserRefreshJti, getUserRefreshJti, hconn, Bool.false_eq_true,
      if_false]
    rw [getCurrentJti_setCurrentJti, if_neg (by omega)]

/-- C5 witness: the amended theorem applied to the concrete failing system
and to a concrete disconnected system. -/
theorem C5_degradation_amended_witness :
    (setUserRefreshJti failingSys "u1" "j1" 100 0).1 = failingSys ∧
    (getUserRefreshJti
       (setUserRefreshJti ⟨⟨false, false, []⟩, ⟨[]⟩⟩ "u1" "j1" 100 0).1
       "u1" 50).1 = some "j1" :=
  ⟨(C5_degradation_amended.1 failingSys "u1" "j1" 100 0 rfl rfl).1,
   C5_degradation_amended.2.2.2 ⟨⟨false, false, []⟩, ⟨[]⟩⟩ "u1" "j1" 100 0 50
     rfl (by decide)⟩

/-! ## C7 -/

/-- C7: membership in the resolved permission set.  A superuser principal
receives exactly the universal set — every permission code attached to any
menu in the system, with no role traversal — while a non-superuser principal
receives exactly the union, over its assigned roles that are non-deleted and
active, of the permission codes attached to the non-deleted, active menus
assigned to those roles. -/
theorem C7_resolve_permissions_membership (sys : Rbac) (p : RPrincipal)
    (c : String) :
    c ∈ resolvePermissions sys p ↔
      (p.isSuperuser = true ∧ ∃ m ∈ sys.menus, m.permission = some c) ∨
      (p.isSuperuser = false ∧ ∃ r ∈ sys.roles,
        (r.id ∈ p.roleIds ∧ r.isDeleted = false ∧ r.isActive = true) ∧
        ∃ m ∈ sys.menus,
          (m.id ∈ r.menuIds ∧ m.isDeleted = false ∧ m.isActive = true) ∧
          m.permission = some c) := by
  cases h : p.isSuperuser with
  | true =>
    simp [resolvePermissions, allPermissions, h, List.mem_filterMap]
  | false =>
    simp only [resolvePermissions, h, Bool.false_eq_true, if_false,
      List.mem_flatMap, List.mem_filter, List.mem_filterMap,
      decide_eq_true_eq, true_and, false_and, false_or]
    constructor
    · rintro ⟨r, ⟨hr, hrf⟩, m, ⟨hm, hmf⟩, hperm⟩
      exact ⟨r, hr, hrf, m, hm, hmf, hperm⟩
    · rintro ⟨r, hr, hrf, m, hm, hmf, hperm⟩
      exact ⟨r, ⟨hr, hrf⟩, m, ⟨hm, hmf⟩, hperm⟩
